import Mathlib

/-! FuelApp backend: the route layer of `backend/src/index.js`

A shallow embedding of the Express application defined in `index.js`:
the two routers, their six route handlers, the 404 fallback and the hand-over
of thrown errors to the error handler.

* The modules `index.js` requires from the same repository (`requireAuth.js`,
  `loginModule.js`, `profileModule.js`, `ErrorHandler.js`) are a parameter
  `Modules σ` of every handler, over an arbitrary server state `σ`.  Theorems
  about the handlers hold for every such implementation.
* `specModules` instantiates that parameter following the written
  specification (sections 4.1 to 4.4 and 7), over the in-memory state `Server`.
* Path matching of the framework is the parameter `Express`.
* A `Request` is the request as the routers see it, that is after
  `express.json()`, `cors`, `express.urlencoded` and `cookieParser(secretKey)`
  have passed it on.
-/

namespace FuelApp

/-! ## JavaScript values and request bodies -/

/-- JSON values as `index.js` observes them.  Numbers are restricted to the
integers; `object` stands for any object or array and carries the text that a
template literal produces for it. -/
inductive JsVal where
  | undefined
  | null
  | bool (b : Bool)
  | num (n : Int)
  | str (s : String)
  | object (rendering : String)
  deriving DecidableEq, Repr

/-- JavaScript truthiness: `!x` in `index.js` is `!(x.truthy)`.  The falsy values
are `undefined`, `null`, `false`, `0` and the empty string. -/
def JsVal.truthy : JsVal → Bool
  | .undefined => false
  | .null => false
  | .bool b => b
  | .num n => !(n == 0)
  | .str s => !(s == "")
  | .object _ => true

/-- Text produced by interpolating a value in a template literal. -/
def JsVal.toText : JsVal → String
  | .undefined => "undefined"
  | .null => "null"
  | .bool b => if b then "true" else "false"
  | .num n => toString n
  | .str s => s
  | .object rendering => rendering

/-- A JavaScript object with JSON values: `req.body`, or a JSON response. -/
abbrev JsObject := List (String × JsVal)

/-- Property read `o.k`: `undefined` when the key is missing. -/
def JsObject.get (o : JsObject) (k : String) : JsVal :=
  (o.lookup k).getD .undefined

/-! ## Requests, responses and thrown errors -/

/-- HTTP methods that reach the routers (pre-flight requests are answered by
the `cors` middleware). -/
inductive Method where
  | GET | POST | HEAD | PUT | PATCH | DELETE
  deriving DecidableEq, Repr

/-- The request as seen by the routers: `req.method`, `req.path`, `req.body`
(an object, empty when no body was sent) and `req.signedCookies.auth_token`
(`none` when the cookie is absent or its signature does not verify). -/
structure Request where
  method : Method
  path : String
  body : JsObject
  authCookie : Option String
  deriving DecidableEq, Repr

/-- Route parameters captured from the path (`req.params`). -/
abbrev Params := List (String × String)

/-- A value thrown inside a handler or a module function: an
`AppError(message, statusCode)` or any other error. -/
inductive Thrown where
  | appError (message : String) (statusCode : Nat)
  | other (message : String)
  deriving DecidableEq, Repr

/-- Options given to `res.cookie` and `res.clearCookie`. -/
structure CookieOptions where
  httpOnly : Bool
  signed : Bool
  deriving DecidableEq, Repr

/-- A cookie header written on the response. -/
inductive CookieOp where
  | set (name : String) (value : String) (opts : CookieOptions)
  | clear (name : String) (opts : CookieOptions)
  deriving DecidableEq, Repr

/-- A response body: `res.send(text)` or `res.json(obj)`. -/
inductive Body where
  | text (s : String)
  | json (obj : JsObject)
  deriving DecidableEq, Repr

/-- The HTTP response that leaves the application. -/
structure Response where
  status : Nat
  body : Body
  cookies : List CookieOp
  deriving DecidableEq, Repr

/-- How a handler ends: it sent a response, or it called `next(error)`. -/
inductive Result where
  | sent (status : Nat) (body : Body)
  | next (err : Thrown)
  deriving DecidableEq, Repr

/-- State of `res` when a handler ends: the cookie headers written so far and
the way it ended. -/
structure Outcome where
  cookies : List CookieOp
  result : Result
  deriving DecidableEq, Repr

/-- The object literal handed to `updateProfile`, fields in source order. -/
structure ProfileFields where
  fullname : JsVal
  street1 : JsVal
  street2 : JsVal
  state : JsVal
  zip : JsVal
  city : JsVal
  deriving DecidableEq, Repr

/-- A call from `index.js` into one of the required modules, with arguments. -/
inductive Call where
  | requireAuth
  | getProfileData (username : JsVal)
  | updateProfile (username : JsVal) (fields : ProfileFields)
  | invalidateToken (token : Option String)
  | validateUser (username : JsVal) (password : JsVal)
  | generateToken (username : JsVal)
  | addUser (username : JsVal) (password : JsVal)
  deriving DecidableEq, Repr

/-- The functions `index.js` imports from the repository's other modules, over
a server state `σ`.  Each may throw and may change the state.  `requireAuth`
either rejects the request or yields the value it stores in `req.username`;
`errorHandler` chooses the status and body sent for an error. -/
structure Modules (σ : Type) where
  requireAuth : Request → Params → σ → Except Thrown JsVal × σ
  getProfileData : JsVal → σ → Except Thrown JsObject × σ
  updateProfile : JsVal → ProfileFields → σ → Except Thrown Unit × σ
  invalidateToken : Option String → σ → Except Thrown Unit × σ
  validateUser : JsVal → JsVal → σ → Except Thrown Bool × σ
  generateToken : JsVal → σ → Except Thrown String × σ
  addUser : JsVal → JsVal → σ → Except Thrown Unit × σ
  errorHandler : Thrown → Nat × Body

/-- Result of running a route: how `res` ended, the server state afterwards and
the module calls made, in order. -/
structure Run (σ : Type) where
  outcome : Outcome
  state : σ
  calls : List Call

/-! ## The route handlers of `index.js` -/

section Handlers

variable {σ : Type}

/-- Handler of `protectedRouter.post('/')`. -/
def postAuthHandler (username : JsVal) (s : σ) : Run σ :=
  ⟨⟨[], .sent 200 (.text ("Successfully authenticated " ++ username.toText))⟩, s, []⟩

/-- Handler of `protectedRouter.get('/profile/:username')`. -/
def getProfileHandler (M : Modules σ) (username : JsVal) (s : σ) : Run σ :=
  match M.getProfileData username s with
  | (.error e, s1) => ⟨⟨[], .next e⟩, s1, [.getProfileData username]⟩
  | (.ok profileData, s1) =>
    ⟨⟨[], .sent 200 (.json profileData)⟩, s1, [.getProfileData username]⟩

/-- Handler of `protectedRouter.post('/profile/:username/edit')`. -/
def postProfileEditHandler (M : Modules σ) (req : Request) (username : JsVal) (s : σ) :
    Run σ :=
  let fullname := req.body.get "fullname"
  let street1 := req.body.get "street1"
  let state := req.body.get "state"
  let zip := req.body.get "zip"
  let city := req.body.get "city"
  let street2 := req.body.get "street2"
  if !fullname.truthy || !street1.truthy || !city.truthy || !zip.truthy || !state.truthy then
    ⟨⟨[], .next (.appError "All fields are required" 400)⟩, s, []⟩
  else
    let fields : ProfileFields := ⟨fullname, street1, street2, state, zip, city⟩
    match M.updateProfile username fields s with
    | (.error e, s1) => ⟨⟨[], .next e⟩, s1, [.updateProfile username fields]⟩
    | (.ok _, s1) =>
      ⟨⟨[], .sent 200 (.json [("message", .str "Profile updated successfully")])⟩, s1,
        [.updateProfile username fields]⟩

/-- Handler of `protectedRouter.post('/logout')`. -/
def postLogoutHandler (M : Modules σ) (req : Request) (username : JsVal) (s : σ) : Run σ :=
  let token := req.authCookie
  match M.invalidateToken token s with
  | (.error e, s1) => ⟨⟨[], .next e⟩, s1, [.invalidateToken token]⟩
  | (.ok _, s1) =>
    ⟨⟨[.clear "auth_token" ⟨true, true⟩],
        .sent 200 (.text ("User " ++ username.toText ++ " logged out"))⟩, s1,
      [.invalidateToken token]⟩

/-- Handler of `unprotectedRouter.post('/login')`. -/
def postLoginHandler (M : Modules σ) (req : Request) (s : σ) : Run σ :=
  let username := req.body.get "username"
  let password := req.body.get "password"
  match M.validateUser username password s with
  | (.error e, s1) => ⟨⟨[], .next e⟩, s1, [.validateUser username password]⟩
  | (.ok valid, s1) =>
    if !valid then
      ⟨⟨[], .next (.appError "Invalid Credentials" 401)⟩, s1,
        [.validateUser username password]⟩
    else
      match M.generateToken username s1 with
      | (.error e, s2) =>
        ⟨⟨[], .next e⟩, s2, [.validateUser username password, .generateToken username]⟩
      | (.ok token, s2) =>
        ⟨⟨[.set "auth_token" token ⟨true, true⟩],
            .sent 200 (.json [("msg", .str
              ("Successfully validated credentials for user: " ++ username.toText))])⟩,
          s2, [.validateUser username password, .generateToken username]⟩

/-- Handler of `unprotectedRouter.post('/register')`. -/
def postRegisterHandler (M : Modules σ) (req : Request) (s : σ) : Run σ :=
  let username := req.body.get "username"
  let password := req.body.get "password"
  match M.addUser username password s with
  | (.error e, s1) => ⟨⟨[], .next e⟩, s1, [.addUser username password]⟩
  | (.ok _, s1) =>
    ⟨⟨[], .sent 200 (.text ("Successfully created user " ++ username.toText ++ " skeleton"))⟩,
      s1, [.addUser username password]⟩

end Handlers

/-! ## Routers and the application -/

/-- The six handlers registered in `index.js`. -/
inductive Handler where
  | authCheck | getProfile | editProfile | logout | login | register
  deriving DecidableEq, Repr

/-- One registration `router.METHOD(path, [requireAuth,] handler)`; `auth` says
whether `requireAuth` is registered in front of the handler. -/
structure Route where
  method : Method
  path : String
  auth : Bool
  handler : Handler
  deriving DecidableEq, Repr

/-- The routes of `protectedRouter`, in registration order. -/
def protectedRouter : List Route :=
  [ ⟨.POST, "/", true, .authCheck⟩,
    ⟨.GET, "/profile/:username", true, .getProfile⟩,
    ⟨.POST, "/profile/:username/edit", true, .editProfile⟩,
    ⟨.POST, "/logout", true, .logout⟩ ]

/-- The routes of `unprotectedRouter`, in registration order. -/
def unprotectedRouter : List Route :=
  [ ⟨.POST, "/login", false, .login⟩,
    ⟨.POST, "/register", false, .register⟩ ]

/-- Path matching of the framework.  `mount p url` is the rest of `url` when a
router mounted at `p` takes it; `route p url` is the captured parameters when
the route path `p` matches `url`. -/
structure Express where
  mount : String → String → Option String
  route : String → String → Option Params

/-- A route handles its own method; a `GET` route also serves `HEAD`. -/
def Route.handles (r : Route) (m : Method) : Bool :=
  r.method == m || (m == .HEAD && r.method == .GET)

/-- First route of a router that handles the method and matches the path. -/
def findRoute (E : Express) (routes : List Route) (m : Method) (url : String) :
    Option (Route × Params) :=
  routes.findSome? fun r =>
    if r.handles m then (E.route r.path url).map fun ps => (r, ps) else none

/-- Route selection of `app`: `protectedRouter` is mounted at `/api/auth` and
tried first, then `unprotectedRouter` at `/api`. -/
def dispatch (E : Express) (req : Request) : Option (Route × Params) :=
  match (E.mount "/api/auth" req.path).bind (findRoute E protectedRouter req.method) with
  | some hit => some hit
  | none => (E.mount "/api" req.path).bind (findRoute E unprotectedRouter req.method)

section App

variable {σ : Type}

/-- Run the handler of a route; `username` is `req.username`. -/
def runHandler (M : Modules σ) (h : Handler) (req : Request) (username : JsVal) (s : σ) :
    Run σ :=
  match h with
  | .authCheck => postAuthHandler username s
  | .getProfile => getProfileHandler M username s
  | .editProfile => postProfileEditHandler M req username s
  | .logout => postLogoutHandler M req username s
  | .login => postLoginHandler M req s
  | .register => postRegisterHandler M req s

/-- Run a matched route: `requireAuth` first when registered, the handler only
if `requireAuth` let the request through. -/
def runRoute (M : Modules σ) (r : Route) (req : Request) (ps : Params) (s : σ) : Run σ :=
  if r.auth then
    match M.requireAuth req ps s with
    | (.error e, s1) => ⟨⟨[], .next e⟩, s1, [.requireAuth]⟩
    | (.ok username, s1) =>
      let run := runHandler M r.handler req username s1
      ⟨run.outcome, run.state, .requireAuth :: run.calls⟩
  else
    runHandler M r.handler req .undefined s

/-- Turn the end state of `res` into the response: an error passed to `next`
goes to the error handler, cookie headers already written stay. -/
def respond (M : Modules σ) (o : Outcome) : Response :=
  match o.result with
  | .sent status body => ⟨status, body, o.cookies⟩
  | .next e => ⟨(M.errorHandler e).1, (M.errorHandler e).2, o.cookies⟩

/-- The response of the 404 fallback `app.use((req, res) => ...)`. -/
def notFound : Response :=
  ⟨404, .text "RESOURCE NOT FOUND", []⟩

/-- One request through the application: response, new state, module calls. -/
def app (E : Express) (M : Modules σ) (req : Request) (s : σ) : Response × σ × List Call :=
  match dispatch E req with
  | some (r, ps) =>
    let run := runRoute M r req ps s
    (respond M run.outcome, run.state, run.calls)
  | none => (notFound, s, [])

end App

/-! ## The required modules, modelled from the specification

`requireAuth.js`, `loginModule.js`, `profileModule.js`, `ErrorHandler.js` and
`db/mockDatabase.js` are not part of the sources at hand.  The definitions of
this section follow the written specification. -/

/-- Modelled from the spec: the User Record of section 3, as stored in the
`users` map of `db/mockDatabase.js`: the password hash beside the profile
fields. -/
structure UserRecord where
  password : String
  fullname : JsVal
  street1 : JsVal
  street2 : JsVal
  city : JsVal
  state : JsVal
  zip : JsVal
  deriving DecidableEq, Repr

/-- Modelled from the spec: the content a Session Token asserts (section 3),
`username`, `issuedAt` and `expiry`. -/
structure TokenClaims where
  username : JsVal
  issuedAt : Nat
  expiry : Nat
  deriving DecidableEq, Repr

/-- Modelled from the spec: the server state of section 2, the Credential
Store (`users`) and the Token Invalidation Set (`invalidTokens`), together with
the clock that token expiry is measured against. -/
structure Server where
  users : List (String × UserRecord)
  invalidTokens : List String
  now : Nat
  deriving DecidableEq, Repr

/-- What the modelled modules take from outside the repository: the password
hash (`hash`, `compare`), token signing under the server secret (`sign`,
`verify`; `verify` yields the claims of a token whose signature checks), the
token lifetime `ttl` and the well-formedness rule of registration. -/
structure Externals where
  hash : String → String
  compare : String → String → Bool
  sign : TokenClaims → String
  verify : String → Option TokenClaims
  ttl : Nat
  wellFormed : String → String → Bool

/-- Modelled from the spec: the `Unauthorized` error of section 7, status 401
(the message text is not fixed by the specification). -/
def unauthorized : Thrown :=
  .appError "Unauthorized" 401

/-- Modelled from the spec: the `NotFound` error of section 7, status 404. -/
def userNotFound : Thrown :=
  .appError "User not found" 404

/-- Modelled from the spec: the `InvalidInput` error of section 7, status 400. -/
def invalidInput : Thrown :=
  .appError "Invalid input" 400

/-- Modelled from the spec: the `DuplicateUser` error of section 7, surfaced
with status 400. -/
def duplicateUser : Thrown :=
  .appError "User already exists" 400

/-- Modelled from the spec: `isTokenInvalidated` of `loginModule.js`,
membership in the Token Invalidation Set. -/
def isTokenInvalidated (s : Server) (token : String) : Bool :=
  s.invalidTokens.contains token

/-- Modelled from the spec: `verifyToken` of section 4.2, in its order:
signature, then expiry (`now > expiry`), then the invalidation set; the
embedded username on success. -/
def verifyToken (X : Externals) (s : Server) (token : String) : Except Thrown JsVal :=
  match X.verify token with
  | none => .error unauthorized
  | some claims =>
    if s.now > claims.expiry then .error unauthorized
    else if isTokenInvalidated s token then .error unauthorized
    else .ok claims.username

/-- Modelled from the spec: the identity-match policy of section 4.2.  A
username named in the request path (`:username`) or in the request body
(`username`) has to equal the username embedded in the token. -/
def identityMatch (req : Request) (ps : Params) (username : JsVal) : Bool :=
  (match ps.lookup "username" with
    | none => true
    | some named => JsVal.str named == username) &&
  (match req.body.get "username" with
    | .undefined => true
    | named => named == username)

/-- Modelled from the spec: the middleware of `requireAuth.js`, section 4.3
with the identity-match policy of section 4.2, whose failure the reference
design reports as the middleware's rejection.  The token is read from the
signed cookie; the request is rejected with `Unauthorized` when the cookie is
absent, when `verifyToken` fails, or on an identity mismatch; otherwise the
resolved username is attached to the request.  The state is not changed. -/
def requireAuth (X : Externals) (req : Request) (ps : Params) (s : Server) :
    Except Thrown JsVal × Server :=
  match req.authCookie with
  | none => (.error unauthorized, s)
  | some token =>
    match verifyToken X s token with
    | .error e => (.error e, s)
    | .ok username =>
      if identityMatch req ps username then (.ok username, s)
      else (.error unauthorized, s)

/-- Modelled from the spec: `invalidateToken` of section 4.2, which adds the
token to the Token Invalidation Set and never fails. -/
def invalidateToken (token : Option String) (s : Server) : Except Thrown Unit × Server :=
  match token with
  | none => (.ok (), s)
  | some t =>
    if s.invalidTokens.contains t then (.ok (), s)
    else (.ok (), ⟨s.users, t :: s.invalidTokens, s.now⟩)

/-- Modelled from the spec: `generateToken` of `loginModule.js`, `issueToken`
of section 4.2: a signed token for `username` issued now, expiring after the
lifetime; no state change. -/
def generateToken (X : Externals) (username : JsVal) (s : Server) :
    Except Thrown String × Server :=
  (.ok (X.sign ⟨username, s.now, s.now + X.ttl⟩), s)

/-- Modelled from the spec: `validateUser` of `loginModule.js`,
`verifyCredentials` of section 4.1: false, not a failure, for an unknown
username or a password that does not match the stored hash. -/
def validateUser (X : Externals) (username password : JsVal) (s : Server) :
    Except Thrown Bool × Server :=
  match username, password with
  | .str u, .str p =>
    match s.users.lookup u with
    | some record => (.ok (X.compare p record.password), s)
    | none => (.ok false, s)
  | _, _ => (.ok false, s)

/-- Modelled from the spec: `addUser` of `loginModule.js`, `createUser` of
section 4.1: `InvalidInput` for an empty or malformed username or password,
`DuplicateUser` for a username already present, otherwise a new record holding
the hash of the password. -/
def addUser (X : Externals) (username password : JsVal) (s : Server) :
    Except Thrown Unit × Server :=
  match username, password with
  | .str u, .str p =>
    if u == "" || p == "" || !X.wellFormed u p then (.error invalidInput, s)
    else if (s.users.lookup u).isSome then (.error duplicateUser, s)
    else
      (.ok (), ⟨s.users ++ [(u, ⟨X.hash p, .undefined, .undefined, .undefined, .undefined,
        .undefined, .undefined⟩)], s.invalidTokens, s.now⟩)
  | _, _ => (.error invalidInput, s)

/-- Modelled from the spec: the profile fields of a record, what `getProfile`
of section 4.1 returns; the password hash is not part of it. -/
def UserRecord.profile (r : UserRecord) : JsObject :=
  [("fullname", r.fullname), ("street1", r.street1), ("street2", r.street2),
   ("city", r.city), ("state", r.state), ("zip", r.zip)]

/-- Modelled from the spec: `getProfileData` of `profileModule.js`, section
4.4 over `getProfile` of section 4.1: the profile fields of the user,
`NotFound` for an unknown username. -/
def getProfileData (username : JsVal) (s : Server) : Except Thrown JsObject × Server :=
  match username with
  | .str u =>
    match s.users.lookup u with
    | some record => (.ok record.profile, s)
    | none => (.error userNotFound, s)
  | _ => (.error userNotFound, s)

/-- Modelled from the spec: a required field that is missing or empty
(section 4.1). -/
def missingOrEmpty (v : JsVal) : Bool :=
  v == .undefined || v == .str ""

/-- Modelled from the spec: `setProfile` of section 4.1 on one record: all
editable fields are replaced as one group, the password hash stays. -/
def UserRecord.setProfile (r : UserRecord) (f : ProfileFields) : UserRecord :=
  ⟨r.password, f.fullname, f.street1, f.street2, f.city, f.state, f.zip⟩

/-- Modelled from the spec: `updateProfile` of `profileModule.js`, section
4.4: `InvalidInput` when a required field is missing or empty, `NotFound` for
an unknown username, otherwise the record of the user gets the new group. -/
def updateProfile (username : JsVal) (f : ProfileFields) (s : Server) :
    Except Thrown Unit × Server :=
  if missingOrEmpty f.fullname || missingOrEmpty f.street1 || missingOrEmpty f.city
      || missingOrEmpty f.state || missingOrEmpty f.zip then
    (.error invalidInput, s)
  else
    match username with
    | .str u =>
      if (s.users.lookup u).isSome then
        (.ok (), ⟨s.users.map fun entry =>
          if entry.1 == u then (entry.1, entry.2.setProfile f) else entry,
          s.invalidTokens, s.now⟩)
      else (.error userNotFound, s)
    | _ => (.error userNotFound, s)

/-- Modelled from the spec: the error handler of `ErrorHandler.js`, section
7: an `AppError` is answered with its status and message, any other error
with status 500 and a generic message. -/
def errorHandler (e : Thrown) : Nat × Body :=
  match e with
  | .appError message statusCode => (statusCode, .text message)
  | .other _ => (500, .text "Internal Server Error")

/-- Modelled from the spec: the modules required by `index.js`, assembled from
the definitions above. -/
def specModules (X : Externals) : Modules Server where
  requireAuth := requireAuth X
  getProfileData := getProfileData
  updateProfile := updateProfile
  invalidateToken := invalidateToken
  validateUser := validateUser X
  generateToken := generateToken X
  addUser := addUser X
  errorHandler := errorHandler

/-- Something that happens to the server: a request arrives, or time passes. -/
inductive Event where
  | request (req : Request)
  | tick (dt : Nat)
  deriving DecidableEq, Repr

/-- The server state after one event. -/
def step (E : Express) (X : Externals) (s : Server) : Event → Server
  | .request req => (app E (specModules X) req s).2.1
  | .tick dt => ⟨s.users, s.invalidTokens, s.now + dt⟩

/-- The server state after a sequence of events. -/
def runEvents (E : Express) (X : Externals) (s : Server) (events : List Event) : Server :=
  events.foldl (step E X) s

/-! ## Vocabulary of the statements and concrete instances -/

/-- The fields the guard of the profile edit handler tests, in source order. -/
def requiredFields : List String :=
  ["fullname", "street1", "city", "zip", "state"]

/-- The registration `protectedRouter.post('/')`. -/
def authRoute : Route :=
  ⟨.POST, "/", true, .authCheck⟩

/-- The registration `protectedRouter.get('/profile/:username')`. -/
def profileRoute : Route :=
  ⟨.GET, "/profile/:username", true, .getProfile⟩

/-- The registration `protectedRouter.post('/profile/:username/edit')`. -/
def editRoute : Route :=
  ⟨.POST, "/profile/:username/edit", true, .editProfile⟩

/-- The registration `protectedRouter.post('/logout')`. -/
def logoutRoute : Route :=
  ⟨.POST, "/logout", true, .logout⟩

/-- The registration `unprotectedRouter.post('/login')`. -/
def loginRoute : Route :=
  ⟨.POST, "/login", false, .login⟩

/-- A request matches a route registered on a router mounted at `mountPath`:
the mount takes the path, the route handles the method and its path matches
the rest. -/
def matchesRoute (E : Express) (mountPath : String) (r : Route) (req : Request) : Bool :=
  match E.mount mountPath req.path with
  | none => false
  | some url => r.handles req.method && (E.route r.path url).isSome

/-- A call into the operations behind the gate: profile read, profile update
or token invalidation. -/
def Call.isProtectedOp : Call → Bool
  | .getProfileData _ => true
  | .updateProfile _ _ => true
  | .invalidateToken _ => true
  | _ => false

/-- Two server states that differ at most in stored password hashes. -/
def sameUpToPasswords (s t : Server) : Prop :=
  s.users.map (fun entry => (entry.1, entry.2.profile)) =
      t.users.map (fun entry => (entry.1, entry.2.profile)) ∧
    s.invalidTokens = t.invalidTokens ∧ s.now = t.now

/-- Split a path at each `/`. -/
def splitPath : List Char → List (List Char)
  | [] => [[]]
  | c :: cs =>
    match splitPath cs with
    | [] => [[c]]
    | seg :: rest => if c = '/' then [] :: seg :: rest else (c :: seg) :: rest

/-- Match path segments against pattern segments; a pattern segment `:name`
captures one non-empty segment. -/
def matchSegments : List (List Char) → List (List Char) → Option Params
  | [], [] => some []
  | p :: ps, u :: us =>
    match p with
    | ':' :: name =>
      if u = [] then none
      else (matchSegments ps us).map fun captured => (String.mk name, String.mk u) :: captured
    | _ => if p = u then matchSegments ps us else none
  | _, _ => none

/-- Strip the segments of a mount path from the front of a path. -/
def stripSegments : List (List Char) → List (List Char) → Option (List (List Char))
  | [], us => some us
  | p :: ps, u :: us => if p = u then stripSegments ps us else none
  | _ :: _, [] => none

/-- An instance of the framework matching, used to evaluate the application
on concrete requests: paths are compared segment by segment, exactly. -/
def segmentExpress : Express where
  mount p url :=
    (stripSegments (splitPath p.data) (splitPath url.data)).map fun rest =>
      String.mk ('/' :: List.intercalate ['/'] rest)
  route p url :=
    matchSegments (splitPath p.data) (splitPath url.data)

/-- An instance of the outside functions, used to evaluate the modelled
modules on concrete requests: one token, issued to `samham`, valid until time
100. -/
def demoExternals : Externals where
  hash p := "hash:" ++ p
  compare p h := h == "hash:" ++ p
  sign claims := "token-" ++ claims.username.toText
  verify t := if t = "token-samham" then some ⟨.str "samham", 0, 100⟩ else none
  ttl := 100
  wellFormed _ p := 8 ≤ p.length

/-- Modules that accept every request as `samham`, used to evaluate the
handlers of `index.js` on concrete requests; the state counts the calls that
change it. -/
def demoModules : Modules Nat where
  requireAuth _ _ s := (.ok (.str "samham"), s)
  getProfileData _ s := (.ok [("fullname", .str "Sammy Hamdi")], s)
  updateProfile _ _ s := (.ok (), s + 1)
  invalidateToken _ s := (.ok (), s + 1)
  validateUser u p s := (.ok (u == .str "samham" && p == .str "Abc12345!"), s)
  generateToken _ s := (.ok "token-samham", s)
  addUser _ _ s := (.ok (), s + 1)
  errorHandler := errorHandler

/-- Modules whose gate rejects every request. -/
def rejectingModules : Modules Nat where
  requireAuth _ _ s := (.error unauthorized, s)
  getProfileData _ s := (.ok [], s)
  updateProfile _ _ s := (.ok (), s + 1)
  invalidateToken _ s := (.ok (), s + 1)
  validateUser _ _ s := (.ok false, s)
  generateToken _ s := (.ok "", s)
  addUser _ _ s := (.ok (), s + 1)
  errorHandler := errorHandler

/-- The stored record of the test suite (`beforeEach` of `index.test.js`). -/
def samhamRecord : UserRecord :=
  ⟨"hash:Abc12345!", .str "Sammy Hamdi", .str "9222 Memorial Dr.", .str "1215 Main Street",
    .str "Houston", .str "TX", .str "77379"⟩

/-- A server holding the user of the test suite, at time 10. -/
def demoServer : Server :=
  ⟨[("samham", samhamRecord)], [], 10⟩

/-- The body `newProfileData` of `index.test.js`. -/
def newProfileData : JsObject :=
  [("fullname", .str "Sam Ham"), ("street1", .str "123 Sesame Street"),
   ("street2", .str "APT 123"), ("city", .str "New York"), ("state", .str "NY"),
   ("zip", .str "10003")]

/-- The body `newProfileData` with the number `0` sent as `zip`: every required
field is present and none is the empty string. -/
def zeroZipBody : JsObject :=
  [("fullname", .str "Sam Ham"), ("street1", .str "123 Sesame Street"),
   ("street2", .str "APT 123"), ("city", .str "New York"), ("state", .str "NY"),
   ("zip", .num 0)]

end FuelApp

namespace FuelApp

/-! ## Facts about routing shared by the statements -/

section Routing

variable {σ : Type}

theorem app_of_dispatch (E : Express) (M : Modules σ) (req : Request) (s : σ) (r : Route)
    (ps : Params) (h : dispatch E req = some (r, ps)) :
    app E M req s =
      (respond M (runRoute M r req ps s).outcome, (runRoute M r req ps s).state,
        (runRoute M r req ps s).calls) := by
  simp [app, h]

theorem runRoute_accepted (M : Modules σ) (r : Route) (req : Request) (ps : Params)
    (s s1 : σ) (u : JsVal) (hr : r.auth = true) (h : M.requireAuth req ps s = (.ok u, s1)) :
    runRoute M r req ps s =
      ⟨(runHandler M r.handler req u s1).outcome, (runHandler M r.handler req u s1).state,
        .requireAuth :: (runHandler M r.handler req u s1).calls⟩ := by
  simp [runRoute, hr, h]

theorem runRoute_rejected (M : Modules σ) (r : Route) (req : Request) (ps : Params)
    (s s1 : σ) (e : Thrown) (hr : r.auth = true) (h : M.requireAuth req ps s = (.error e, s1)) :
    runRoute M r req ps s = ⟨⟨[], .next e⟩, s1, [.requireAuth]⟩ := by
  simp [runRoute, hr, h]

end Routing

/-! ## The profile edit handler -/

section Edit

variable {σ : Type}

theorem edit_guard_of_missing (req : Request) (k : String) (hk : k ∈ requiredFields)
    (hmiss : req.body.get k = .undefined ∨ req.body.get k = .str "") :
    (!(req.body.get "fullname").truthy || !(req.body.get "street1").truthy
      || !(req.body.get "city").truthy || !(req.body.get "zip").truthy
      || !(req.body.get "state").truthy) = true := by
  have hfalsy : (req.body.get k).truthy = false := by
    rcases hmiss with h | h <;> simp [h, JsVal.truthy]
  simp only [requiredFields, List.mem_cons, List.mem_singleton, List.not_mem_nil,
    or_false] at hk
  rcases hk with rfl | rfl | rfl | rfl | rfl <;> simp [hfalsy]

/-- C1: an authenticated request to the profile edit route whose body lacks one
of the required fields `fullname`, `street1`, `city`, `zip`, `state`, or holds
the empty string for it, ends with `AppError("All fields are required", 400)`
handed to the error handler; the only module call is `requireAuth`, so
`updateProfile` is never called, and the state is the one `requireAuth` left. -/
theorem edit_rejects_missing_field (E : Express) (M : Modules σ) (req : Request)
    (ps : Params) (s s1 : σ) (u : JsVal) (k : String)
    (hroute : dispatch E req = some (editRoute, ps))
    (hauth : M.requireAuth req ps s = (.ok u, s1))
    (hk : k ∈ requiredFields)
    (hmiss : req.body.get k = .undefined ∨ req.body.get k = .str "") :
    (runRoute M editRoute req ps s).outcome =
        ⟨[], .next (.appError "All fields are required" 400)⟩ ∧
      app E M req s =
        (⟨(M.errorHandler (.appError "All fields are required" 400)).1,
          (M.errorHandler (.appError "All fields are required" 400)).2, []⟩,
          s1, [.requireAuth]) ∧
      ∀ v f, Call.updateProfile v f ∉ (app E M req s).2.2 := by
  have hg := edit_guard_of_missing req k hk hmiss
  have hrun : runRoute M editRoute req ps s =
      ⟨⟨[], .next (.appError "All fields are required" 400)⟩, s1, [.requireAuth]⟩ := by
    rw [runRoute_accepted M editRoute req ps s s1 u rfl hauth]
    simp only [editRoute, runHandler, postProfileEditHandler, hg, if_true]
  have happ := app_of_dispatch E M req s editRoute ps hroute
  rw [hrun] at happ
  refine ⟨by rw [hrun], ?_, ?_⟩
  · rw [happ]; rfl
  · intro v f
    rw [happ]
    simp

/-- C1 at the request of the test suite: only `fullname` is sent. -/
theorem edit_rejects_missing_field_witness :
    app segmentExpress demoModules
        ⟨.POST, "/api/auth/profile/samham/edit", [("fullname", .str "hello")],
          some "token-samham"⟩ 0 =
      (⟨400, .text "All fields are required", []⟩, 0, [.requireAuth]) :=
  (edit_rejects_missing_field segmentExpress demoModules
    ⟨.POST, "/api/auth/profile/samham/edit", [("fullname", .str "hello")],
      some "token-samham"⟩
    [("username", "samham")] 0 0 (.str "samham") "street1" (by decide) rfl (by decide)
    (Or.inl (by decide))).2.1

end Edit

/-! ## The login handler -/

section Login

variable {σ : Type}

/-- C4: a login request whose credentials `validateUser` does not accept ends
with `AppError("Invalid Credentials", 401)` handed to the error handler; the
only module call is `validateUser`, so `generateToken` is never called, and
the response carries no cookie. -/
theorem login_rejects_invalid_credentials (E : Express) (M : Modules σ) (req : Request)
    (ps : Params) (s s1 : σ)
    (hroute : dispatch E req = some (loginRoute, ps))
    (hvalid : M.validateUser (req.body.get "username") (req.body.get "password") s =
      (.ok false, s1)) :
    (runRoute M loginRoute req ps s).outcome =
        ⟨[], .next (.appError "Invalid Credentials" 401)⟩ ∧
      app E M req s =
        (⟨(M.errorHandler (.appError "Invalid Credentials" 401)).1,
          (M.errorHandler (.appError "Invalid Credentials" 401)).2, []⟩,
          s1, [.validateUser (req.body.get "username") (req.body.get "password")]) ∧
      (∀ v, Call.generateToken v ∉ (app E M req s).2.2) ∧
      (app E M req s).1.cookies = [] := by
  have hrun : runRoute M loginRoute req ps s =
      ⟨⟨[], .next (.appError "Invalid Credentials" 401)⟩, s1,
        [.validateUser (req.body.get "username") (req.body.get "password")]⟩ := by
    simp [runRoute, loginRoute, runHandler, postLoginHandler, hvalid]
  have happ := app_of_dispatch E M req s loginRoute ps hroute
  rw [hrun] at happ
  refine ⟨by rw [hrun], ?_, ?_, ?_⟩
  · rw [happ]; rfl
  · intro v
    rw [happ]
    simp
  · rw [happ]; rfl

/-- C4 at the requests of the test suite: wrong credentials, and no body. -/
theorem login_rejects_invalid_credentials_witness :
    app segmentExpress demoModules
        ⟨.POST, "/api/login", [("username", .str "samham1"), ("password", .str "123")],
          none⟩ 0 =
      (⟨401, .text "Invalid Credentials", []⟩, 0,
        [.validateUser (.str "samham1") (.str "123")]) ∧
    (app segmentExpress demoModules ⟨.POST, "/api/login", [], none⟩ 0).1 =
      ⟨401, .text "Invalid Credentials", []⟩ :=
  ⟨(login_rejects_invalid_credentials segmentExpress demoModules
      ⟨.POST, "/api/login", [("username", .str "samham1"), ("password", .str "123")], none⟩
      [] 0 0 (by decide) rfl).2.1,
    congrArg Prod.fst (login_rejects_invalid_credentials segmentExpress demoModules
      ⟨.POST, "/api/login", [], none⟩ [] 0 0 (by decide) rfl).2.1⟩

/-- C5: a login request whose credentials `validateUser` accepts, and for whose
username `generateToken` returns the token `token`, is answered with status
200 and exactly one cookie: `auth_token`, HttpOnly and signed, whose value is
`token`. -/
theorem login_sets_auth_cookie (E : Express) (M : Modules σ) (req : Request)
    (ps : Params) (s s1 s2 : σ) (token : String)
    (hroute : dispatch E req = some (loginRoute, ps))
    (hvalid : M.validateUser (req.body.get "username") (req.body.get "password") s =
      (.ok true, s1))
    (htoken : M.generateToken (req.body.get "username") s1 = (.ok token, s2)) :
    (app E M req s).1.status = 200 ∧
      (app E M req s).1.cookies = [.set "auth_token" token ⟨true, true⟩] ∧
      (app E M req s).2.1 = s2 ∧
      (app E M req s).2.2 =
        [.validateUser (req.body.get "username") (req.body.get "password"),
          .generateToken (req.body.get "username")] := by
  have hrun : runRoute M loginRoute req ps s =
      ⟨⟨[.set "auth_token" token ⟨true, true⟩],
          .sent 200 (.json [("msg", .str ("Successfully validated credentials for user: "
            ++ (req.body.get "username").toText))])⟩, s2,
        [.validateUser (req.body.get "username") (req.body.get "password"),
          .generateToken (req.body.get "username")]⟩ := by
    simp [runRoute, loginRoute, runHandler, postLoginHandler, hvalid, htoken]
  have happ := app_of_dispatch E M req s loginRoute ps hroute
  rw [hrun] at happ
  rw [happ]
  exact ⟨rfl, rfl, rfl, rfl⟩

/-- C5 at the request of the test suite: the valid credentials are sent. -/
theorem login_sets_auth_cookie_witness :
    (app segmentExpress demoModules
        ⟨.POST, "/api/login", [("username", .str "samham"), ("password", .str "Abc12345!")],
          none⟩ 0).1.status = 200 ∧
    (app segmentExpress demoModules
        ⟨.POST, "/api/login", [("username", .str "samham"), ("password", .str "Abc12345!")],
          none⟩ 0).1.cookies = [.set "auth_token" "token-samham" ⟨true, true⟩] :=
  ⟨(login_sets_auth_cookie segmentExpress demoModules
      ⟨.POST, "/api/login", [("username", .str "samham"), ("password", .str "Abc12345!")],
        none⟩ [] 0 0 0 "token-samham" (by decide) rfl rfl).1,
    (login_sets_auth_cookie segmentExpress demoModules
      ⟨.POST, "/api/login", [("username", .str "samham"), ("password", .str "Abc12345!")],
        none⟩ [] 0 0 0 "token-samham" (by decide) rfl rfl).2.1⟩

end Login

/-! ## Route selection, the 404 fallback and the gate -/

section Gate

variable {σ : Type}

theorem findRoute_mem (E : Express) (routes : List Route) (m : Method) (url : String)
    (r : Route) (ps : Params) (h : findRoute E routes m url = some (r, ps)) :
    r ∈ routes := by
  unfold findRoute at h
  obtain ⟨a, ha, hfa⟩ := List.exists_of_findSome?_eq_some h
  split at hfa
  · cases hm : E.route a.path url with
    | none => simp [hm] at hfa
    | some qs =>
      simp [hm] at hfa
      rw [← hfa.1]
      exact ha
  · simp at hfa

theorem findRoute_none (E : Express) (routes : List Route) (m : Method) (url : String)
    (h : ∀ r ∈ routes, (r.handles m && (E.route r.path url).isSome) = false) :
    findRoute E routes m url = none := by
  unfold findRoute
  rw [List.findSome?_eq_none_iff]
  intro r hr
  have hr2 := h r hr
  cases hm : r.handles m with
  | false => simp
  | true =>
    cases hp : E.route r.path url with
    | none => simp
    | some qs => simp [hm, hp] at hr2

theorem dispatch_mem (E : Express) (req : Request) (r : Route) (ps : Params)
    (h : dispatch E req = some (r, ps)) :
    r ∈ protectedRouter ∨ r ∈ unprotectedRouter := by
  unfold dispatch at h
  split at h
  · next hit hhit =>
    cases h
    cases hm : E.mount "/api/auth" req.path with
    | none => simp [hm] at hhit
    | some url =>
      simp only [hm, Option.some_bind] at hhit
      exact Or.inl (findRoute_mem E _ _ _ r ps hhit)
  · cases hm : E.mount "/api" req.path with
    | none => simp [hm] at h
    | some url =>
      simp only [hm, Option.some_bind] at h
      exact Or.inr (findRoute_mem E _ _ _ r ps h)

theorem dispatch_none (E : Express) (req : Request)
    (hp : ∀ r ∈ protectedRouter, matchesRoute E "/api/auth" r req = false)
    (hu : ∀ r ∈ unprotectedRouter, matchesRoute E "/api" r req = false) :
    dispatch E req = none := by
  have h1 : (E.mount "/api/auth" req.path).bind (findRoute E protectedRouter req.method)
      = none := by
    cases hm : E.mount "/api/auth" req.path with
    | none => rfl
    | some url =>
      simp only [Option.some_bind]
      apply findRoute_none
      intro r hr
      have := hp r hr
      simpa [matchesRoute, hm] using this
  have h2 : (E.mount "/api" req.path).bind (findRoute E unprotectedRouter req.method)
      = none := by
    cases hm : E.mount "/api" req.path with
    | none => rfl
    | some url =>
      simp only [Option.some_bind]
      apply findRoute_none
      intro r hr
      have := hu r hr
      simpa [matchesRoute, hm] using this
  unfold dispatch
  rw [h1, h2]

theorem protected_auth (r : Route) (hr : r ∈ protectedRouter) : r.auth = true := by
  simp only [protectedRouter, List.mem_cons, List.mem_singleton, List.not_mem_nil,
    or_false] at hr
  rcases hr with rfl | rfl | rfl | rfl <;> rfl

theorem postLoginHandler_calls (M : Modules σ) (req : Request) (s : σ) :
    ∀ c ∈ (postLoginHandler M req s).calls, c.isProtectedOp = false := by
  unfold postLoginHandler
  intro c hc
  rcases hv : M.validateUser (req.body.get "username") (req.body.get "password") s
    with ⟨_ | valid, s1⟩
  · simp only [hv, List.mem_singleton] at hc
    subst hc; rfl
  · cases valid
    · simp only [hv, Bool.not_false, if_true, List.mem_singleton] at hc
      subst hc; rfl
    · rcases hg : M.generateToken (req.body.get "username") s1 with ⟨_ | token, s2⟩ <;>
      · simp only [hv, hg, Bool.not_true, Bool.false_eq_true, if_false, List.mem_cons,
          List.mem_singleton, List.not_mem_nil, or_false] at hc
        rcases hc with rfl | rfl <;> rfl

theorem postRegisterHandler_calls (M : Modules σ) (req : Request) (s : σ) :
    ∀ c ∈ (postRegisterHandler M req s).calls, c.isProtectedOp = false := by
  unfold postRegisterHandler
  intro c hc
  rcases ha : M.addUser (req.body.get "username") (req.body.get "password") s
    with ⟨_ | _, s1⟩ <;>
  · simp only [ha, List.mem_singleton] at hc
    subst hc; rfl

theorem unprotected_calls (M : Modules σ) (r : Route) (req : Request) (ps : Params) (s : σ)
    (hr : r ∈ unprotectedRouter) :
    ∀ c ∈ (runRoute M r req ps s).calls, c.isProtectedOp = false := by
  simp only [unprotectedRouter, List.mem_cons, List.mem_singleton, List.not_mem_nil,
    or_false] at hr
  rcases hr with rfl | rfl
  · exact postLoginHandler_calls M req s
  · exact postRegisterHandler_calls M req s

/-- C8: a request that matches none of the registered routes (neither a route
of the protected router under `/api/auth` nor a route of the unprotected
router under `/api`) is answered by the fallback with status 404 and the text
"RESOURCE NOT FOUND"; no module function is called and the state is kept. -/
theorem unmatched_request_404 (E : Express) (M : Modules σ) (req : Request) (s : σ)
    (hp : ∀ r ∈ protectedRouter, matchesRoute E "/api/auth" r req = false)
    (hu : ∀ r ∈ unprotectedRouter, matchesRoute E "/api" r req = false) :
    app E M req s = (⟨404, .text "RESOURCE NOT FOUND", []⟩, s, []) := by
  simp [app, dispatch_none E req hp hu, notFound]

/-- C8 at the requests of the test suite and of the claim: an unknown path
under `/api`, and an unmatched path under `/api/auth`. -/
theorem unmatched_request_404_witness :
    app segmentExpress demoModules ⟨.GET, "/api/fakeresource", [], none⟩ 0 =
      (⟨404, .text "RESOURCE NOT FOUND", []⟩, 0, []) ∧
    app segmentExpress demoModules ⟨.GET, "/api/auth/logout", [], some "token-samham"⟩ 0 =
      (⟨404, .text "RESOURCE NOT FOUND", []⟩, 0, []) :=
  ⟨unmatched_request_404 segmentExpress demoModules ⟨.GET, "/api/fakeresource", [], none⟩ 0
      (by decide) (by decide),
    unmatched_request_404 segmentExpress demoModules
      ⟨.GET, "/api/auth/logout", [], some "token-samham"⟩ 0 (by decide) (by decide)⟩

/-- C7: `requireAuth` is the gate of the protected operations.  Every route of
the protected router has `requireAuth` registered before its handler.  When a
request selects such a route and `requireAuth` rejects it with error `e`, the
response is the one the error handler gives for `e`, the only module call is
`requireAuth` and the state is the one `requireAuth` left; with the modelled
middleware and error handler that response has status 401.  Conversely, any
request during which `getProfileData`, `updateProfile` or `invalidateToken` is
called selected a route of the protected router and was accepted by
`requireAuth`, which ran first. -/
theorem requireAuth_sole_gate (E : Express) (M : Modules σ) (X : Externals) (req : Request)
    (s : σ) :
    (∀ r ∈ protectedRouter, r.auth = true) ∧
    (∀ r ps e s1, dispatch E req = some (r, ps) → r ∈ protectedRouter →
      M.requireAuth req ps s = (.error e, s1) →
      app E M req s = (⟨(M.errorHandler e).1, (M.errorHandler e).2, []⟩, s1, [.requireAuth])) ∧
    (∀ r ps e t t1, dispatch E req = some (r, ps) → r ∈ protectedRouter →
      requireAuth X req ps t = (.error e, t1) →
      app E (specModules X) req t = (⟨401, .text "Unauthorized", []⟩, t, [.requireAuth])) ∧
    (∀ c ∈ (app E M req s).2.2, c.isProtectedOp = true →
      ∃ r ps u s1, dispatch E req = some (r, ps) ∧ r ∈ protectedRouter ∧
        M.requireAuth req ps s = (.ok u, s1) ∧
        (app E M req s).2.2.head? = some .requireAuth) := by
  refine ⟨protected_auth, ?_, ?_, ?_⟩
  · intro r ps e s1 hd hr hrej
    rw [app_of_dispatch E M req s r ps hd,
      runRoute_rejected M r req ps s s1 e (protected_auth r hr) hrej]
    rfl
  · intro r ps e t t1 hd hr hrej
    have hrej2 : (specModules X).requireAuth req ps t = (.error e, t1) := hrej
    rw [app_of_dispatch E (specModules X) req t r ps hd,
      runRoute_rejected (specModules X) r req ps t t1 e (protected_auth r hr) hrej2]
    unfold requireAuth verifyToken at hrej
    have : e = unauthorized ∧ t1 = t := by
      split at hrej
      · simp at hrej; exact ⟨hrej.1.symm, hrej.2.symm⟩
      · split at hrej
        · next e2 he2 =>
          simp at hrej
          refine ⟨?_, hrej.2.symm⟩
          rw [← hrej.1]
          split at he2
          · simp at he2; exact he2.symm
          · split at he2
            · simp at he2; exact he2.symm
            · split at he2
              · simp at he2; exact he2.symm
              · simp at he2
        · split at hrej
          · simp at hrej
          · simp at hrej; exact ⟨hrej.1.symm, hrej.2.symm⟩
    rw [this.1, this.2]
    rfl
  · intro c hc hop
    cases hd : dispatch E req with
    | none => simp [app, hd] at hc
    | some hit =>
      obtain ⟨r, ps⟩ := hit
      rw [app_of_dispatch E M req s r ps hd] at hc ⊢
      rcases dispatch_mem E req r ps hd with hr | hr
      · have hauth := protected_auth r hr
        cases hq : M.requireAuth req ps s with
        | mk res s1 =>
          cases res with
          | error e =>
            rw [runRoute_rejected M r req ps s s1 e hauth hq] at hc
            simp at hc
            subst hc
            simp [Call.isProtectedOp] at hop
          | ok u =>
            refine ⟨r, ps, u, s1, rfl, hr, hq, ?_⟩
            rw [runRoute_accepted M r req ps s s1 u hauth hq]
            rfl
      · have := unprotected_calls M r req ps s hr c hc
        rw [this] at hop
        cases hop

/-- C7 at the request of the test suite: a bad cookie on `POST /api/auth/`,
rejected by a gate that rejects, reaches no handler. -/
theorem requireAuth_sole_gate_witness :
    app segmentExpress rejectingModules
        ⟨.POST, "/api/auth/", [("username", .str "samham")], some "badtoken"⟩ 0 =
      (⟨401, .text "Unauthorized", []⟩, 0, [.requireAuth]) ∧
    app segmentExpress (specModules demoExternals)
        ⟨.GET, "/api/auth/profile/samham", [], some "badtoken"⟩ demoServer =
      (⟨401, .text "Unauthorized", []⟩, demoServer, [.requireAuth]) :=
  ⟨(requireAuth_sole_gate segmentExpress rejectingModules demoExternals
      ⟨.POST, "/api/auth/", [("username", .str "samham")], some "badtoken"⟩ 0).2.1
      authRoute [] unauthorized 0 (by decide) (by decide) rfl,
    (requireAuth_sole_gate segmentExpress rejectingModules demoExternals
      ⟨.GET, "/api/auth/profile/samham", [], some "badtoken"⟩ 0).2.2.1
      profileRoute [("username", "samham")] unauthorized demoServer demoServer
      (by decide) (by decide) rfl⟩

end Gate

/-! ## Identity match at the modelled gate -/

section Identity

variable {σ : Type}

theorem requireAuth_mismatch (X : Externals) (req : Request) (ps : Params) (s : Server)
    (token : String) (username : JsVal)
    (hcookie : req.authCookie = some token)
    (htoken : verifyToken X s token = .ok username)
    (hmis : identityMatch req ps username = false) :
    requireAuth X req ps s = (.error unauthorized, s) := by
  simp [requireAuth, hcookie, htoken, hmis]

theorem app_rejected_by_spec_gate (E : Express) (X : Externals) (req : Request) (r : Route)
    (ps : Params) (s : Server) (hroute : dispatch E req = some (r, ps))
    (hr : r ∈ protectedRouter)
    (hrej : requireAuth X req ps s = (.error unauthorized, s)) :
    app E (specModules X) req s = (⟨401, .text "Unauthorized", []⟩, s, [.requireAuth]) := by
  have hrej2 : (specModules X).requireAuth req ps s = (.error unauthorized, s) := hrej
  rw [app_of_dispatch E (specModules X) req s r ps hroute,
    runRoute_rejected (specModules X) r req ps s s unauthorized (protected_auth r hr) hrej2]
  rfl

/-- C2: for distinct usernames `u` and `v`, a request to the profile route or
the profile edit route for `v` that carries a token verifying to `u` is
answered with status 401 by the modelled gate: the handler does not run, no
module function behind the gate is called and the state, hence every profile
record, is unchanged.  Independently of the gate, for any modules: whenever a
request on these routes is accepted with `req.username = w`, the handlers of
`index.js` read and write the profile of `w` only, never that of the name in
the path. -/
theorem profile_routes_reject_other_user (E : Express) (X : Externals) (req : Request)
    (r : Route) (ps : Params) (s : Server) (token u v : String)
    (hroute : dispatch E req = some (r, ps))
    (hr : r = profileRoute ∨ r = editRoute)
    (hpath : ps.lookup "username" = some v)
    (hcookie : req.authCookie = some token)
    (htoken : verifyToken X s token = .ok (.str u))
    (hne : u ≠ v) :
    app E (specModules X) req s = (⟨401, .text "Unauthorized", []⟩, s, [.requireAuth]) ∧
      (app E (specModules X) req s).1.status ≠ 200 ∧
      (app E (specModules X) req s).2.1.users = s.users ∧
      ∀ (M : Modules σ) (s0 s1 : σ) (w : JsVal), M.requireAuth req ps s0 = (.ok w, s1) →
        ∀ c ∈ (app E M req s0).2.2,
          c = .requireAuth ∨ c = .getProfileData w ∨ ∃ f, c = .updateProfile w f := by
  have hmem : r ∈ protectedRouter := by
    rcases hr with rfl | rfl <;> decide
  have hmis : identityMatch req ps (.str u) = false := by
    have : (JsVal.str v == JsVal.str u) = false := by
      simp only [beq_eq_false_iff_ne, ne_eq, JsVal.str.injEq]
      exact fun h => hne h.symm
    simp [identityMatch, hpath, this]
  have happ := app_rejected_by_spec_gate E X req r ps s hroute hmem
    (requireAuth_mismatch X req ps s token (.str u) hcookie htoken hmis)
  refine ⟨happ, ?_, ?_, ?_⟩
  · rw [happ]; simp
  · rw [happ]
  · intro M s0 s1 w hacc c hc
    rw [app_of_dispatch E M req s0 r ps hroute] at hc
    rcases hr with rfl | rfl
    · rw [runRoute_accepted M profileRoute req ps s0 s1 w rfl hacc] at hc
      simp only [profileRoute, runHandler, getProfileHandler, List.mem_cons] at hc
      rcases hc with rfl | hc
      · exact Or.inl rfl
      · right; left
        rcases hg : M.getProfileData w s1 with ⟨_ | _, s2⟩ <;>
        · simp only [hg, List.mem_singleton] at hc
          exact hc
    · rw [runRoute_accepted M editRoute req ps s0 s1 w rfl hacc] at hc
      simp only [editRoute, runHandler, postProfileEditHandler, List.mem_cons] at hc
      rcases hc with rfl | hc
      · exact Or.inl rfl
      · right; right
        split at hc
        · simp at hc
        · split at hc <;>
          · simp only [List.mem_singleton] at hc
            exact ⟨_, hc⟩

/-- C2 at the request of the test suite: the token of `samham` on the profile
of `samham1`. -/
theorem profile_routes_reject_other_user_witness :
    app segmentExpress (specModules demoExternals)
        ⟨.GET, "/api/auth/profile/samham1", [], some "token-samham"⟩ demoServer =
      (⟨401, .text "Unauthorized", []⟩, demoServer, [.requireAuth]) :=
  (@profile_routes_reject_other_user Nat segmentExpress demoExternals
    ⟨.GET, "/api/auth/profile/samham1", [], some "token-samham"⟩ profileRoute
    [("username", "samham1")] demoServer "token-samham" "samham" "samham1"
    (by decide) (Or.inl rfl) (by decide) rfl rfl (by decide)).1

/-- C3: a request to `POST /auth/` or `POST /auth/logout` that carries a token
verifying to `u` but names another username `v` in its body is answered with
status 401 by the modelled gate; the only module call is `requireAuth`, so in
the logout case `invalidateToken` is not called, the invalidation set and the
rest of the state are unchanged, and no cookie header is written. -/
theorem body_username_mismatch_rejected (E : Express) (X : Externals) (req : Request)
    (r : Route) (ps : Params) (s : Server) (token u v : String)
    (hroute : dispatch E req = some (r, ps))
    (hr : r = authRoute ∨ r = logoutRoute)
    (hcookie : req.authCookie = some token)
    (htoken : verifyToken X s token = .ok (.str u))
    (hbody : req.body.get "username" = .str v)
    (hne : u ≠ v) :
    app E (specModules X) req s = (⟨401, .text "Unauthorized", []⟩, s, [.requireAuth]) ∧
      (∀ tok, Call.invalidateToken tok ∉ (app E (specModules X) req s).2.2) ∧
      (app E (specModules X) req s).2.1.invalidTokens = s.invalidTokens ∧
      (app E (specModules X) req s).1.cookies = [] := by
  have hmem : r ∈ protectedRouter := by
    rcases hr with rfl | rfl <;> decide
  have hmis : identityMatch req ps (.str u) = false := by
    have : (JsVal.str v == JsVal.str u) = false := by
      simp only [beq_eq_false_iff_ne, ne_eq, JsVal.str.injEq]
      exact fun h => hne h.symm
    simp [identityMatch, hbody, this]
  have happ := app_rejected_by_spec_gate E X req r ps s hroute hmem
    (requireAuth_mismatch X req ps s token (.str u) hcookie htoken hmis)
  refine ⟨happ, ?_, ?_, ?_⟩
  · intro tok
    rw [happ]
    simp
  · rw [happ]
  · rw [happ]

/-- C3 at the requests of the test suite: the token of `samham`, the body
naming `samham1`, on logout and on `POST /auth/`. -/
theorem body_username_mismatch_rejected_witness :
    app segmentExpress (specModules demoExternals)
        ⟨.POST, "/api/auth/logout", [("username", .str "samham1")], some "token-samham"⟩
        demoServer =
      (⟨401, .text "Unauthorized", []⟩, demoServer, [.requireAuth]) ∧
    app segmentExpress (specModules demoExternals)
        ⟨.POST, "/api/auth/", [("username", .str "samham1")], some "token-samham"⟩
        demoServer =
      (⟨401, .text "Unauthorized", []⟩, demoServer, [.requireAuth]) :=
  ⟨(body_username_mismatch_rejected segmentExpress demoExternals
      ⟨.POST, "/api/auth/logout", [("username", .str "samham1")], some "token-samham"⟩
      logoutRoute [] demoServer "token-samham" "samham" "samham1"
      (by decide) (Or.inr rfl) rfl rfl rfl (by decide)).1,
    (body_username_mismatch_rejected segmentExpress demoExternals
      ⟨.POST, "/api/auth/", [("username", .str "samham1")], some "token-samham"⟩
      authRoute [] demoServer "token-samham" "samham" "samham1"
      (by decide) (Or.inl rfl) rfl rfl rfl (by decide)).1⟩

end Identity

/-! ## Logout and the invalidation set -/

section Logout

theorem requireAuth_state (X : Externals) (req : Request) (ps : Params) (s : Server) :
    (requireAuth X req ps s).2 = s := by
  unfold requireAuth
  split
  · rfl
  · split
    · rfl
    · split <;> rfl

theorem requireAuth_error (X : Externals) (req : Request) (ps : Params) (s : Server)
    (e : Thrown) (s1 : Server) (h : requireAuth X req ps s = (.error e, s1)) :
    e = unauthorized := by
  unfold requireAuth verifyToken at h
  split at h
  · simp at h; exact h.1.symm
  · split at h
    · next e2 he2 =>
      simp at h
      rw [← h.1]
      split at he2
      · simp at he2; exact he2.symm
      · split at he2
        · simp at he2; exact he2.symm
        · split at he2
          · simp at he2; exact he2.symm
          · simp at he2
    · split at h
      · simp at h
      · simp at h; exact h.1.symm

theorem verifyToken_invalidated (X : Externals) (s : Server) (t : String)
    (h : t ∈ s.invalidTokens) : verifyToken X s t = .error unauthorized := by
  have hc : isTokenInvalidated s t = true := by
    simp [isTokenInvalidated, h]
  unfold verifyToken
  split
  · rfl
  · split
    · rfl
    · simp [hc]

theorem requireAuth_invalidated (X : Externals) (req : Request) (ps : Params) (s : Server)
    (t : String) (hcookie : req.authCookie = some t) (h : t ∈ s.invalidTokens) :
    requireAuth X req ps s = (.error unauthorized, s) := by
  simp [requireAuth, hcookie, verifyToken_invalidated X s t h]

theorem invalidateToken_adds (t : String) (s : Server) :
    t ∈ (invalidateToken (some t) s).2.invalidTokens ∧
      (invalidateToken (some t) s).1 = .ok () := by
  by_cases h : t ∈ s.invalidTokens <;> simp [invalidateToken, h]

theorem invalidateToken_keeps (tok : Option String) (s : Server) (t : String)
    (h : t ∈ s.invalidTokens) : t ∈ (invalidateToken tok s).2.invalidTokens := by
  unfold invalidateToken
  split
  · exact h
  · split
    · exact h
    · simp [h]

theorem updateProfile_invalidTokens (u : JsVal) (f : ProfileFields) (s : Server) :
    (updateProfile u f s).2.invalidTokens = s.invalidTokens := by
  unfold updateProfile
  split
  · rfl
  · split
    · split <;> rfl
    · rfl

theorem addUser_invalidTokens (X : Externals) (u p : JsVal) (s : Server) :
    (addUser X u p s).2.invalidTokens = s.invalidTokens := by
  unfold addUser
  split
  · split
    · rfl
    · split <;> rfl
  · rfl

theorem validateUser_state (X : Externals) (u p : JsVal) (s : Server) :
    (validateUser X u p s).2 = s := by
  unfold validateUser
  split
  · split <;> rfl
  · rfl

theorem getProfileData_state (u : JsVal) (s : Server) : (getProfileData u s).2 = s := by
  unfold getProfileData
  split
  · split <;> rfl
  · rfl

theorem runHandler_keeps_invalid (X : Externals) (h : Handler) (req : Request) (u : JsVal)
    (s : Server) (t : String) (ht : t ∈ s.invalidTokens) :
    t ∈ (runHandler (specModules X) h req u s).state.invalidTokens := by
  cases h with
  | authCheck => exact ht
  | getProfile =>
    have hs := getProfileData_state u s
    simp only [runHandler, getProfileHandler, specModules]
    rcases hg : getProfileData u s with ⟨_ | _, s1⟩ <;>
    · rw [hg] at hs
      simp only at hs ⊢
      rw [hs]; exact ht
  | editProfile =>
    simp only [runHandler, postProfileEditHandler, specModules]
    split
    · exact ht
    · have hs := updateProfile_invalidTokens u
        ⟨req.body.get "fullname", req.body.get "street1", req.body.get "street2",
          req.body.get "state", req.body.get "zip", req.body.get "city"⟩ s
      split <;>
      · next heq =>
        rw [heq] at hs
        simp only at hs ⊢
        rw [hs]; exact ht
  | logout =>
    have hs := invalidateToken_keeps req.authCookie s t ht
    simp only [runHandler, postLogoutHandler, specModules]
    rcases hg : invalidateToken req.authCookie s with ⟨_ | _, s1⟩ <;>
    · rw [hg] at hs
      exact hs
  | login =>
    have hs := validateUser_state X (req.body.get "username") (req.body.get "password") s
    simp only [runHandler, postLoginHandler, specModules, generateToken]
    rcases hg : validateUser X (req.body.get "username") (req.body.get "password") s
      with ⟨_ | valid, s1⟩
    · rw [hg] at hs
      simp only at hs ⊢
      rw [hs]; exact ht
    · rw [hg] at hs
      simp only at hs ⊢
      rw [hs]
      cases valid <;> exact ht
  | register =>
    have hs := addUser_invalidTokens X (req.body.get "username") (req.body.get "password") s
    simp only [runHandler, postRegisterHandler, specModules]
    rcases hg : addUser X (req.body.get "username") (req.body.get "password") s
      with ⟨_ | _, s1⟩ <;>
    · rw [hg] at hs
      simp only at hs ⊢
      rw [hs]; exact ht

theorem runRoute_keeps_invalid (X : Externals) (r : Route) (req : Request) (ps : Params)
    (s : Server) (t : String) (ht : t ∈ s.invalidTokens) :
    t ∈ (runRoute (specModules X) r req ps s).state.invalidTokens := by
  unfold runRoute
  split
  · have hs := requireAuth_state X req ps s
    have hspec : (specModules X).requireAuth req ps s = requireAuth X req ps s := rfl
    rw [hspec]
    rcases hg : requireAuth X req ps s with ⟨_ | u, s1⟩
    · rw [hg] at hs
      simp only at hs ⊢
      rw [hs]; exact ht
    · rw [hg] at hs
      simp only at hs ⊢
      rw [hs]
      exact runHandler_keeps_invalid X r.handler req u s t ht
  · exact runHandler_keeps_invalid X r.handler req .undefined s t ht

theorem step_keeps_invalid (E : Express) (X : Externals) (s : Server) (ev : Event)
    (t : String) (ht : t ∈ s.invalidTokens) : t ∈ (step E X s ev).invalidTokens := by
  cases ev with
  | tick dt => exact ht
  | request req =>
    simp only [step, app]
    split
    · exact runRoute_keeps_invalid X _ req _ s t ht
    · exact ht

theorem runEvents_keeps_invalid (E : Express) (X : Externals) (events : List Event)
    (s : Server) (t : String) (ht : t ∈ s.invalidTokens) :
    t ∈ (runEvents E X s events).invalidTokens := by
  induction events generalizing s with
  | nil => exact ht
  | cons ev rest ih =>
    exact ih (step E X s ev) (step_keeps_invalid E X s ev t ht)

/-- C6: when a logout request presenting the token `t` in the signed cookie
succeeds (status 200), `invalidateToken` was called with exactly `t`, `t` is in
the Token Invalidation Set of the resulting state, and the response clears
the `auth_token` cookie.  After any further sequence of requests and passing
of time, `verifyToken` fails on `t` and every request that presents `t` to a
route of the protected router is answered with status 401 without reaching
its handler. -/
theorem logout_revokes_token (E : Express) (X : Externals) (req : Request) (ps : Params)
    (s : Server) (t : String)
    (hroute : dispatch E req = some (logoutRoute, ps))
    (hcookie : req.authCookie = some t)
    (hok : (app E (specModules X) req s).1.status = 200) :
    t ∈ (app E (specModules X) req s).2.1.invalidTokens ∧
      (app E (specModules X) req s).2.2 = [.requireAuth, .invalidateToken (some t)] ∧
      (app E (specModules X) req s).1.cookies = [.clear "auth_token" ⟨true, true⟩] ∧
      ∀ (events : List Event) (later : Request) (r : Route) (qs : Params),
        dispatch E later = some (r, qs) → r ∈ protectedRouter → later.authCookie = some t →
        verifyToken X (runEvents E X (app E (specModules X) req s).2.1 events) t =
            .error unauthorized ∧
          app E (specModules X) later (runEvents E X (app E (specModules X) req s).2.1 events) =
            (⟨401, .text "Unauthorized", []⟩,
              runEvents E X (app E (specModules X) req s).2.1 events, [.requireAuth]) := by
  have happ := app_of_dispatch E (specModules X) req s logoutRoute ps hroute
  have hspec : (specModules X).requireAuth req ps s = requireAuth X req ps s := rfl
  have hst := requireAuth_state X req ps s
  rcases hg : requireAuth X req ps s with ⟨e | u, s1⟩
  · exfalso
    rw [hg] at hspec
    have he := requireAuth_error X req ps s e s1 hg
    rw [runRoute_rejected (specModules X) logoutRoute req ps s s1 e rfl hspec] at happ
    rw [happ, he] at hok
    simp [respond, specModules, errorHandler, unauthorized] at hok
  · rw [hg] at hspec hst
    simp only at hst
    rw [hst] at hspec hg
    clear hst s1
    rw [runRoute_accepted (specModules X) logoutRoute req ps s s u rfl hspec] at happ
    have hadd := invalidateToken_adds t s
    simp only [logoutRoute, runHandler, postLogoutHandler, specModules, hcookie] at happ
    rcases hi : invalidateToken (some t) s with ⟨_ | _, s2⟩
    · rw [hi] at hadd
      simp at hadd
    · rw [hi] at hadd happ
      simp only at happ hadd
      change app E (specModules X) req s = _ at happ
      have hmem : t ∈ (app E (specModules X) req s).2.1.invalidTokens := by
        rw [happ]; exact hadd.1
      refine ⟨hmem, by rw [happ], by rw [happ]; rfl, ?_⟩
      intro events later r qs hd hr hc
      have hinv := runEvents_keeps_invalid E X events _ t hmem
      exact ⟨verifyToken_invalidated X _ t hinv,
        app_rejected_by_spec_gate E X later r qs _ hd hr
          (requireAuth_invalidated X later qs _ t hc hinv)⟩

/-- C6 at the requests of the test suite: `samham` logs out, time passes,
`samham` logs in again, and the old cookie is replayed on the profile route. -/
theorem logout_revokes_token_witness :
    "token-samham" ∈
        (app segmentExpress (specModules demoExternals)
          ⟨.POST, "/api/auth/logout", [("username", .str "samham")], some "token-samham"⟩
          demoServer).2.1.invalidTokens ∧
      (app segmentExpress (specModules demoExternals)
          ⟨.GET, "/api/auth/profile/samham", [], some "token-samham"⟩
          (runEvents segmentExpress demoExternals
            (app segmentExpress (specModules demoExternals)
              ⟨.POST, "/api/auth/logout", [("username", .str "samham")],
                some "token-samham"⟩ demoServer).2.1
            [.tick 5,
              .request ⟨.POST, "/api/login",
                [("username", .str "samham"), ("password", .str "Abc12345!")], none⟩])).1 =
        ⟨401, .text "Unauthorized", []⟩ :=
  ⟨(logout_revokes_token segmentExpress demoExternals
      ⟨.POST, "/api/auth/logout", [("username", .str "samham")], some "token-samham"⟩
      [] demoServer "token-samham" (by decide) rfl (by decide)).1,
    congrArg Prod.fst
      ((logout_revokes_token segmentExpress demoExternals
        ⟨.POST, "/api/auth/logout", [("username", .str "samham")], some "token-samham"⟩
        [] demoServer "token-samham" (by decide) rfl (by decide)).2.2.2
        [.tick 5,
          .request ⟨.POST, "/api/login",
            [("username", .str "samham"), ("password", .str "Abc12345!")], none⟩]
        ⟨.GET, "/api/auth/profile/samham", [], some "token-samham"⟩
        profileRoute [("username", "samham")] (by decide) (by decide) rfl).2⟩

end Logout

/-! ## The profile response and the password hash -/

section Profile

theorem lookup_profile_congr (u : String) :
    ∀ (l1 l2 : List (String × UserRecord)),
      l1.map (fun entry => (entry.1, entry.2.profile)) =
        l2.map (fun entry => (entry.1, entry.2.profile)) →
      (l1.lookup u).map UserRecord.profile = (l2.lookup u).map UserRecord.profile := by
  intro l1
  induction l1 with
  | nil =>
    intro l2 h
    cases l2 with
    | nil => rfl
    | cons b l2 => simp at h
  | cons a l1 ih =>
    intro l2 h
    cases l2 with
    | nil => simp at h
    | cons b l2 =>
      obtain ⟨ka, ra⟩ := a
      obtain ⟨kb, rb⟩ := b
      simp only [List.map_cons, List.cons.injEq, Prod.mk.injEq] at h
      obtain ⟨⟨hk, hp⟩, hrest⟩ := h
      subst hk
      simp only [List.lookup_cons]
      cases hu : (u == ka) with
      | true => simp [hp]
      | false => exact ih l2 hrest

theorem verifyToken_congr (X : Externals) (s t : Server) (token : String)
    (hi : s.invalidTokens = t.invalidTokens) (hn : s.now = t.now) :
    verifyToken X s token = verifyToken X t token := by
  simp [verifyToken, isTokenInvalidated, hi, hn]

theorem getProfileData_congr (u : JsVal) (s t : Server) (h : sameUpToPasswords s t) :
    (getProfileData u s).1 = (getProfileData u t).1 := by
  cases u with
  | str name =>
    have hl := lookup_profile_congr name s.users t.users h.1
    simp only [getProfileData]
    cases hs : s.users.lookup name with
    | none =>
      cases ht : t.users.lookup name with
      | none => rfl
      | some rt => simp [hs, ht] at hl
    | some rs =>
      cases ht : t.users.lookup name with
      | none => simp [hs, ht] at hl
      | some rt =>
        simp only [hs, ht, Option.map_some', Option.some.injEq] at hl
        simp [hl]
  | _ => rfl

theorem getProfileData_keys (u : JsVal) (s : Server) (obj : JsObject)
    (h : (getProfileData u s).1 = .ok obj) :
    ∃ name record, u = .str name ∧ s.users.lookup name = some record ∧
      obj = record.profile := by
  cases u with
  | str name =>
    simp only [getProfileData] at h
    cases hs : s.users.lookup name with
    | none => simp [hs] at h
    | some record =>
      simp only [hs, Except.ok.injEq] at h
      exact ⟨name, record, rfl, hs, h.symm⟩
  | _ => simp [getProfileData] at h

theorem profile_response (E : Express) (X : Externals) (req : Request) (ps : Params)
    (s : Server) (hroute : dispatch E req = some (profileRoute, ps)) :
    (app E (specModules X) req s).1 =
      match (requireAuth X req ps s).1 with
      | .error e => ⟨(errorHandler e).1, (errorHandler e).2, []⟩
      | .ok u =>
        match (getProfileData u s).1 with
        | .error e => ⟨(errorHandler e).1, (errorHandler e).2, []⟩
        | .ok obj => ⟨200, .json obj, []⟩ := by
  rw [app_of_dispatch E (specModules X) req s profileRoute ps hroute]
  have hspec : (specModules X).requireAuth req ps s = requireAuth X req ps s := rfl
  rcases hg : requireAuth X req ps s with ⟨e | u, s1⟩
  · rw [hg] at hspec
    rw [runRoute_rejected (specModules X) profileRoute req ps s s1 e rfl hspec]
    rfl
  · rw [hg] at hspec
    rw [runRoute_accepted (specModules X) profileRoute req ps s s1 u rfl hspec]
    have hst := requireAuth_state X req ps s
    rw [hg] at hst
    simp only at hst
    subst hst
    simp only [profileRoute, runHandler, getProfileHandler]
    have hspec2 : (specModules X).getProfileData u s1 = getProfileData u s1 := rfl
    rw [hspec2]
    rcases hp : getProfileData u s1 with ⟨e | obj, s2⟩ <;> rfl

/-- C10: the response to a request on the profile route does not depend on
stored password hashes: two server states that differ only in password
hashes give the same response.  When the response has a JSON body, that body
is the profile of a stored record: its keys are exactly `fullname`, `street1`,
`street2`, `city`, `state`, `zip`, and `password` is not among them. -/
theorem profile_response_hides_password (E : Express) (X : Externals) (req : Request)
    (ps : Params) (s t : Server)
    (hroute : dispatch E req = some (profileRoute, ps))
    (hsame : sameUpToPasswords s t) :
    (app E (specModules X) req s).1 = (app E (specModules X) req t).1 ∧
      ∀ obj, (app E (specModules X) req s).1.body = .json obj →
        obj.map Prod.fst = ["fullname", "street1", "street2", "city", "state", "zip"] ∧
          "password" ∉ obj.map Prod.fst ∧
          ∃ name record, s.users.lookup name = some record ∧ obj = record.profile := by
  have hs := profile_response E X req ps s hroute
  have ht := profile_response E X req ps t hroute
  have hauth : (requireAuth X req ps s).1 = (requireAuth X req ps t).1 := by
    unfold requireAuth
    cases req.authCookie with
    | none => rfl
    | some token =>
      simp only
      rw [verifyToken_congr X s t token hsame.2.1 hsame.2.2]
      cases verifyToken X t token with
      | error e => rfl
      | ok u => simp only; split <;> rfl
  refine ⟨?_, ?_⟩
  · rw [hs, ht, hauth]
    cases (requireAuth X req ps t).1 with
    | error e => rfl
    | ok u => simp only [getProfileData_congr u s t hsame]
  · intro obj hobj
    rw [hs] at hobj
    cases hq : (requireAuth X req ps s).1 with
    | error e =>
      rw [hq] at hobj
      cases e <;> simp [errorHandler] at hobj
    | ok u =>
      rw [hq] at hobj
      simp only at hobj
      cases hp : (getProfileData u s).1 with
      | error e =>
        rw [hp] at hobj
        cases e <;> simp [errorHandler] at hobj
      | ok obj2 =>
        rw [hp] at hobj
        simp only [Body.json.injEq] at hobj
        subst hobj
        obtain ⟨name, record, _, hl, hrec⟩ := getProfileData_keys u s obj2 hp
        subst hrec
        exact ⟨rfl, by simp [UserRecord.profile], name, record, hl, rfl⟩

/-- C10 at the record of the test suite: the same profile response for two
different stored hashes. -/
theorem profile_response_hides_password_witness :
    (app segmentExpress (specModules demoExternals)
        ⟨.GET, "/api/auth/profile/samham", [], some "token-samham"⟩ demoServer).1 =
      (app segmentExpress (specModules demoExternals)
        ⟨.GET, "/api/auth/profile/samham", [], some "token-samham"⟩
        ⟨[("samham", ⟨"another hash", .str "Sammy Hamdi", .str "9222 Memorial Dr.",
          .str "1215 Main Street", .str "Houston", .str "TX", .str "77379"⟩)], [], 10⟩).1 :=
  (profile_response_hides_password segmentExpress demoExternals
    ⟨.GET, "/api/auth/profile/samham", [], some "token-samham"⟩ [("username", "samham")]
    demoServer
    ⟨[("samham", ⟨"another hash", .str "Sammy Hamdi", .str "9222 Memorial Dr.",
      .str "1215 Main Street", .str "Houston", .str "TX", .str "77379"⟩)], [], 10⟩
    (by decide) ⟨rfl, rfl, rfl⟩).1

end Profile

/-! ## The profile edit, accepted -/

section EditAccepted

variable {σ : Type}

theorem edit_app_of_truthy (E : Express) (M : Modules σ) (req : Request) (ps : Params)
    (s s1 : σ) (u : JsVal)
    (hroute : dispatch E req = some (editRoute, ps))
    (hauth : M.requireAuth req ps s = (.ok u, s1))
    (hfields : ∀ k ∈ requiredFields, (req.body.get k).truthy = true) :
    app E M req s =
      (respond M (runHandler M .editProfile req u s1).outcome,
        (runHandler M .editProfile req u s1).state,
        .requireAuth :: (runHandler M .editProfile req u s1).calls) ∧
      runHandler M .editProfile req u s1 =
        match M.updateProfile u
            ⟨req.body.get "fullname", req.body.get "street1", req.body.get "street2",
              req.body.get "state", req.body.get "zip", req.body.get "city"⟩ s1 with
        | (.error e, s2) =>
          ⟨⟨[], .next e⟩, s2,
            [.updateProfile u
              ⟨req.body.get "fullname", req.body.get "street1", req.body.get "street2",
                req.body.get "state", req.body.get "zip", req.body.get "city"⟩]⟩
        | (.ok _, s2) =>
          ⟨⟨[], .sent 200 (.json [("message", .str "Profile updated successfully")])⟩, s2,
            [.updateProfile u
              ⟨req.body.get "fullname", req.body.get "street1", req.body.get "street2",
                req.body.get "state", req.body.get "zip", req.body.get "city"⟩]⟩ := by
  have h1 := hfields "fullname" (by simp [requiredFields])
  have h2 := hfields "street1" (by simp [requiredFields])
  have h3 := hfields "city" (by simp [requiredFields])
  have h4 := hfields "zip" (by simp [requiredFields])
  have h5 := hfields "state" (by simp [requiredFields])
  have happ := app_of_dispatch E M req s editRoute ps hroute
  rw [runRoute_accepted M editRoute req ps s s1 u rfl hauth] at happ
  refine ⟨happ, ?_⟩
  simp only [runHandler, postProfileEditHandler, h1, h2, h3, h4, h5, Bool.not_true,
    Bool.or_self, Bool.false_eq_true, if_false]

theorem missingOrEmpty_of_truthy (v : JsVal) (h : v.truthy = true) :
    missingOrEmpty v = false := by
  cases v with
  | undefined => simp [JsVal.truthy] at h
  | str t =>
    have ht : t ≠ "" := by simpa [JsVal.truthy] using h
    simp [missingOrEmpty, ht]
  | _ => rfl

theorem lookup_map_setProfile (name : String) (f : ProfileFields) :
    ∀ (l : List (String × UserRecord)) (k : String),
      (l.map fun entry =>
          if entry.1 == name then (entry.1, entry.2.setProfile f) else entry).lookup k =
        if k = name then (l.lookup k).map fun r => r.setProfile f else l.lookup k := by
  intro l k
  induction l with
  | nil => simp
  | cons a l ih =>
    obtain ⟨ka, ra⟩ := a
    by_cases hname : ka = name
    · have hn : (ka == name) = true := by simpa using hname
      simp only [List.map_cons, hn, if_true, List.lookup_cons]
      by_cases hk : k = ka
      · subst hk
        subst hname
        simp
      · have hb : (k == ka) = false := by simpa using hk
        simp only [hb]
        exact ih
    · have hn : (ka == name) = false := by simpa using hname
      simp only [List.map_cons, hn, Bool.false_eq_true, if_false, List.lookup_cons]
      by_cases hk : k = ka
      · subst hk
        simp [hname]
      · have hb : (k == ka) = false := by simpa using hk
        simp only [hb]
        exact ih

theorem updateProfile_ok (name : String) (f : ProfileFields) (t : Server)
    (record : UserRecord) (hrec : t.users.lookup name = some record)
    (h1 : f.fullname.truthy = true) (h2 : f.street1.truthy = true)
    (h3 : f.city.truthy = true) (h4 : f.state.truthy = true) (h5 : f.zip.truthy = true) :
    updateProfile (.str name) f t =
      (.ok (), ⟨t.users.map fun entry =>
        if entry.1 == name then (entry.1, entry.2.setProfile f) else entry,
        t.invalidTokens, t.now⟩) := by
  simp [updateProfile, missingOrEmpty_of_truthy _ h1, missingOrEmpty_of_truthy _ h2,
    missingOrEmpty_of_truthy _ h3, missingOrEmpty_of_truthy _ h4,
    missingOrEmpty_of_truthy _ h5, hrec]

/-- C9, as amended: an authenticated request (resolved username `u`) to the
profile edit route whose body holds a truthy value for each of `fullname`,
`street1`, `city`, `zip`, `state` (for a string: present and non-empty; the
values `0`, `false` and `null` are not truthy) calls `updateProfile` exactly
once, for `u`, with the group `fullname, street1, street2, state, zip, city`
read from the body, and makes no other call behind the gate; when that call
succeeds the response is 200 with the confirmation message.  With the modelled
modules, for a stored user: the response is 200 and the record of that user
then holds exactly the six fields of the body, all replaced together, beside
its unchanged password hash; every other record, the invalidation set and the
clock are unchanged. -/
theorem edit_calls_updateProfile_once (E : Express) (M : Modules σ) (req : Request)
    (ps : Params) (s s1 : σ) (u : JsVal)
    (hroute : dispatch E req = some (editRoute, ps))
    (hauth : M.requireAuth req ps s = (.ok u, s1))
    (hfields : ∀ k ∈ requiredFields, (req.body.get k).truthy = true) :
    (app E M req s).2.2 =
        [.requireAuth,
          .updateProfile u
            ⟨req.body.get "fullname", req.body.get "street1", req.body.get "street2",
              req.body.get "state", req.body.get "zip", req.body.get "city"⟩] ∧
      ((app E M req s).2.2.filter Call.isProtectedOp).length = 1 ∧
      (∀ s2, M.updateProfile u
            ⟨req.body.get "fullname", req.body.get "street1", req.body.get "street2",
              req.body.get "state", req.body.get "zip", req.body.get "city"⟩ s1 = (.ok (), s2) →
        app E M req s =
          (⟨200, .json [("message", .str "Profile updated successfully")], []⟩, s2,
            [.requireAuth,
              .updateProfile u
                ⟨req.body.get "fullname", req.body.get "street1", req.body.get "street2",
                  req.body.get "state", req.body.get "zip", req.body.get "city"⟩])) ∧
      ∀ (X : Externals) (t : Server) (name : String) (record : UserRecord),
        (requireAuth X req ps t).1 = .ok (.str name) →
        t.users.lookup name = some record →
        (app E (specModules X) req t).1 =
            ⟨200, .json [("message", .str "Profile updated successfully")], []⟩ ∧
          (app E (specModules X) req t).2.1.users.lookup name =
            some ⟨record.password, req.body.get "fullname", req.body.get "street1",
              req.body.get "street2", req.body.get "city", req.body.get "state",
              req.body.get "zip"⟩ ∧
          (∀ other, other ≠ name →
            (app E (specModules X) req t).2.1.users.lookup other = t.users.lookup other) ∧
          (app E (specModules X) req t).2.1.invalidTokens = t.invalidTokens ∧
          (app E (specModules X) req t).2.1.now = t.now := by
  obtain ⟨happ, hrun⟩ := edit_app_of_truthy E M req ps s s1 u hroute hauth hfields
  refine ⟨?_, ?_, ?_, ?_⟩
  · rw [happ, hrun]
    split <;> rfl
  · rw [happ, hrun]
    split <;> simp [Call.isProtectedOp]
  · intro s2 h2
    rw [happ, hrun, h2]
    rfl
  · intro X t name record hacc hrec
    have hacc2 : (specModules X).requireAuth req ps t = (.ok (.str name), t) := by
      have hst := requireAuth_state X req ps t
      show requireAuth X req ps t = _
      rcases hq : requireAuth X req ps t with ⟨res, t1⟩
      rw [hq] at hacc hst
      simp only at hacc hst
      rw [hacc, hst]
    obtain ⟨happ2, hrun2⟩ :=
      edit_app_of_truthy E (specModules X) req ps t t (.str name) hroute hacc2 hfields
    have hup := updateProfile_ok name
      ⟨req.body.get "fullname", req.body.get "street1", req.body.get "street2",
        req.body.get "state", req.body.get "zip", req.body.get "city"⟩ t record hrec
      (hfields "fullname" (by simp [requiredFields]))
      (hfields "street1" (by simp [requiredFields]))
      (hfields "city" (by simp [requiredFields]))
      (hfields "state" (by simp [requiredFields]))
      (hfields "zip" (by simp [requiredFields]))
    have hup2 : (specModules X).updateProfile (.str name)
        ⟨req.body.get "fullname", req.body.get "street1", req.body.get "street2",
          req.body.get "state", req.body.get "zip", req.body.get "city"⟩ t = _ := hup
    rw [hup2] at hrun2
    rw [happ2, hrun2]
    refine ⟨rfl, ?_, ?_, rfl, rfl⟩
    · dsimp only
      rw [lookup_map_setProfile, if_pos rfl, hrec]
      rfl
    · intro other hne
      dsimp only
      rw [lookup_map_setProfile, if_neg hne]

/-- C9 at the request of the test suite: `newProfileData` is sent, the call is
made once, and with the modelled modules the stored record of `samham` then
holds the new fields. -/
theorem edit_calls_updateProfile_once_witness :
    app segmentExpress demoModules
        ⟨.POST, "/api/auth/profile/samham/edit", newProfileData, some "token-samham"⟩ 0 =
      (⟨200, .json [("message", .str "Profile updated successfully")], []⟩, 1,
        [.requireAuth,
          .updateProfile (.str "samham")
            ⟨.str "Sam Ham", .str "123 Sesame Street", .str "APT 123", .str "NY",
              .str "10003", .str "New York"⟩]) ∧
    (app segmentExpress (specModules demoExternals)
        ⟨.POST, "/api/auth/profile/samham/edit", newProfileData, some "token-samham"⟩
        demoServer).2.1.users.lookup "samham" =
      some ⟨"hash:Abc12345!", .str "Sam Ham", .str "123 Sesame Street", .str "APT 123",
        .str "New York", .str "NY", .str "10003"⟩ :=
  ⟨(edit_calls_updateProfile_once segmentExpress demoModules
      ⟨.POST, "/api/auth/profile/samham/edit", newProfileData, some "token-samham"⟩
      [("username", "samham")] 0 0 (.str "samham") (by decide) rfl (by decide)).2.2.1 1 rfl,
    ((edit_calls_updateProfile_once segmentExpress demoModules
      ⟨.POST, "/api/auth/profile/samham/edit", newProfileData, some "token-samham"⟩
      [("username", "samham")] 0 0 (.str "samham") (by decide) rfl (by decide)).2.2.2
      demoExternals demoServer "samham" samhamRecord rfl rfl).2.1⟩

/-- C9 as first stated fails: in `zeroZipBody` every required field is present
and none is the empty string, yet the request, accepted by the gate, is
answered with status 400 and `updateProfile` is not called, because the guard
of the handler refuses the number `0` sent as `zip`. -/
theorem edit_present_nonempty_zero_zip_rejected :
    (∀ k ∈ requiredFields,
        zeroZipBody.get k ≠ .undefined ∧ zeroZipBody.get k ≠ .str "") ∧
      app segmentExpress demoModules
          ⟨.POST, "/api/auth/profile/samham/edit", zeroZipBody, some "token-samham"⟩ 0 =
        (⟨400, .text "All fields are required", []⟩, 0, [.requireAuth]) ∧
      app segmentExpress (specModules demoExternals)
          ⟨.POST, "/api/auth/profile/samham/edit", zeroZipBody, some "token-samham"⟩
          demoServer =
        (⟨400, .text "All fields are required", []⟩, demoServer, [.requireAuth]) := by
  refine ⟨by decide, rfl, rfl⟩

end EditAccepted

end FuelApp
